import Mathlib

/-!
Verification of the Investment Committee debate engine.

This file gives a shallow embedding, in Lean 4, of the pure core of the
repository: the tag extraction layer (`extract_key_points`, thesis and
decision extraction), the Portfolio Manager decision parser
(`parse_decision`), the conversation-agent state machine (`Agent.invoke`,
`analyze_initial`, `analyze_rebuttal`, `make_decision`), the orchestrator
control flow (`run_investment_committee`), and the TTL file cache
(`FileCache.get` / `set` / `stats`).

Python strings are modelled as `List Char`; Python's `str.find`,
slicing, `strip` and `upper` are embedded as executable functions on
`List Char` with Python's semantics for the non-negative indices used by
the source.  Exceptions are modelled with `Except`.
-/

namespace InvestmentCommittee

/-- Python `sub in s` / `s.find(sub)`: index of the first occurrence of
`pat` as a contiguous substring of `s`, if any. -/
def pyFind (pat : List Char) : List Char → Option Nat
  | [] => if pat.isPrefixOf ([] : List Char) then some 0 else none
  | c :: cs =>
      if pat.isPrefixOf (c :: cs) then some 0
      else (pyFind pat cs).map (· + 1)

/-- Python `s[a:b]` for `0 ≤ a, b` (with clamping past the end, and the
empty result when `b ≤ a`). -/
def pySlice (s : List Char) (a b : Nat) : List Char :=
  (s.take b).drop a

/-- Whitespace characters stripped by Python's `str.strip()` (the ASCII
ones; the source only ever strips model output around tag delimiters). -/
def isPySpace (c : Char) : Bool :=
  c = ' ' ∨ c = '\t' ∨ c = '\n' ∨ c = '\r' ∨ c = '\x0b' ∨ c = '\x0c'

/-- Python `s.strip()`: drop whitespace from both ends. -/
def pyStrip (s : List Char) : List Char :=
  (s.dropWhile isPySpace).rdropWhile isPySpace

/-- Python `str.upper()` on one character (ASCII range, which is all the
source compares against: the enum names BUY/SELL/HOLD). -/
def pyUpperChar (c : Char) : Char :=
  if ('a') ≤ c ∧ c ≤ ('z') then Char.ofNat (c.toNat - 32) else c

/-- Python `s.upper()`. -/
def pyUpper (s : List Char) : List Char :=
  s.map pyUpperChar

/-- `Decision` enum from `agents.py`: the Portfolio Manager's options. -/
inductive Decision where
  | BUY
  | SELL
  | HOLD
  deriving DecidableEq, Repr

/-- The `name` of each `Decision` member, as `Decision[...]` looks it up. -/
def Decision.name : Decision → List Char
  | .BUY => ("BUY").data
  | .SELL => ("SELL").data
  | .HOLD => ("HOLD").data

/-- Python `Decision[s]`: lookup of an enum member by name; raises
`KeyError` (modelled as `Except.error`) when `s` names no member. -/
def decisionLookup (s : List Char) : Except Unit Decision :=
  if s = Decision.name .BUY then .ok .BUY
  else if s = Decision.name .SELL then .ok .SELL
  else if s = Decision.name .HOLD then .ok .HOLD
  else .error ()

/-- `PortfolioDecision` model from `agents.py` (the `confidence` field is
never set by `parse_decision` and is omitted). -/
structure PortfolioDecision where
  decision : Decision
  justification : List Char
  deriving DecidableEq, Repr

/-- The literal `"<decision>"` delimiter. -/
def dOpen : List Char := ("<decision>").data

/-- The literal `"</decision>"` delimiter. -/
def dClose : List Char := ("</decision>").data

/-- The literal `"<justification>"` delimiter. -/
def jOpen : List Char := ("<justification>").data

/-- The literal `"</justification>"` delimiter. -/
def jClose : List Char := ("</justification>").data

/-- `PortfolioManagerAgent.parse_decision` from `agents.py` (the
`content` field of the response is its argument): extracts the decision
between the first `<decision>` and the first `</decision>` occurrence,
strips and upper-cases it, looks it up in the `Decision` enum defaulting
to `HOLD` on `KeyError`; extracts the justification between
`<justification>` tags, defaulting to the whole content. -/
def parse_decision (content : List Char) : PortfolioDecision :=
  let decision_str :=
    match pyFind dOpen content, pyFind dClose content with
    | some i, some j => pyUpper (pyStrip (pySlice content (i + dOpen.length) j))
    | _, _ => ("HOLD").data
  let justification :=
    match pyFind jOpen content, pyFind jClose content with
    | some i, some j => pyStrip (pySlice content (i + jOpen.length) j)
    | _, _ => content
  let decision :=
    match decisionLookup decision_str with
    | .ok d => d
    | .error _ => Decision.HOLD
  { decision := decision, justification := justification }

/-- The literal `"<key_points>"` delimiter. -/
def kOpen : List Char := ("<key_points>").data

/-- The literal `"</key_points>"` delimiter. -/
def kClose : List Char := ("</key_points>").data

/-- The regex search `re.search(r"<key_points>(.*?)</key_points>", s,
re.DOTALL)` of `extract_key_points`: the match starts at the first
`<key_points>` occurrence, and the lazy group ends at the first
`</key_points>` occurrence after it.  (If the first opening tag has no
closing tag after it then no later opening tag has one either, so the
regex fails exactly when this returns `none`.)  The result is the
stripped group, as `match.group(1).strip()` returns it. -/
def extractMatch (s : List Char) : Option (List Char) :=
  match pyFind kOpen s with
  | none => none
  | some i =>
      match pyFind kClose (s.drop (i + kOpen.length)) with
      | none => none
      | some j => some (pyStrip ((s.drop (i + kOpen.length)).take j))

/-- `extract_key_points` from `agents.py`: the stripped first
`<key_points>…</key_points>` group, or the fallback
`s[:500] + "..." if len(s) > 500 else s`. -/
def extract_key_points (s : List Char) : List Char :=
  match extractMatch s with
  | some r => r
  | none => if s.length > 500 then s.take 500 ++ ("...").data else s

/-- `AgentRole` enum from `agents.py`. -/
inductive AgentRole where
  | bull
  | bear
  | portfolio_manager
  deriving DecidableEq, Repr

/-- One entry of a conversation history:
`{"role": "user"|"assistant", "content": ...}`. -/
inductive Speaker where
  | user
  | assistant
  deriving DecidableEq, Repr

/-- A conversation turn as stored in `Agent._conversation_history`. -/
structure Turn where
  speaker : Speaker
  content : List Char
  deriving DecidableEq, Repr

/-- The Python exceptions the embedded code can raise.  `typeError`
models an uncaught `TypeError` (its message is irrelevant to control
flow). -/
inductive PyError where
  | valueError (msg : List Char)
  | typeError
  deriving DecidableEq, Repr

/-- The lazily constructed LLM client of `Agent._get_client` (an opaque
external handle; only its identity matters to the control flow). -/
inductive Client where
  | openai
  | anthropic
  deriving DecidableEq, Repr

/-- `Agent` state from `agents.py`: role, provider identity and the
mutable conversation history.  The `system_prompt` field is a constant
lookup `SYSTEM_PROMPTS[role]` (total: the dict has all three enum keys)
and is therefore determined by `role`; the lazy `_client` cache is
modelled by calling `getClient` at each use, which is observationally
identical because the cached value is a pure function of the provider. -/
structure Agent where
  role : AgentRole
  llm_provider : List Char
  history : List Turn
  deriving DecidableEq, Repr

/-- One call of the external completion capability, recording the role
(whose constant system prompt is sent) and the full message list sent. -/
structure CompletionCall where
  role : AgentRole
  messages : List Turn
  deriving DecidableEq, Repr

/-- The opaque completion capability `complete(systemPrompt, history)`:
a deterministic function of the role (which fixes the system prompt) and
the message history.  The trace of `CompletionCall`s records each
invocation. -/
def Oracle : Type := AgentRole → List Turn → List Char

/-- Structured agent output, from `agents.py` (`content` and
`raw_response` are both set to the raw completion text). -/
structure AgentResponse where
  role : AgentRole
  content : List Char
  raw_response : List Char
  deriving DecidableEq, Repr

/-- `Agent.__init__`: stores role and provider and starts with an empty
conversation history.  The body is field assignments plus the total
`SYSTEM_PROMPTS[role]` lookup, so it cannot raise: construction always
completes, for every provider string. -/
def Agent.init (role : AgentRole) (llm_provider : List Char) : Agent :=
  { role := role, llm_provider := llm_provider, history := [] }

/-- `Agent._get_client`: returns the provider client, raising
`ValueError(f"Unknown LLM provider: {...}")` for any provider string
other than `"openai"` and `"anthropic"`.  This is the first point where
an unknown provider identity fails. -/
def Agent.getClient (a : Agent) : Except PyError Client :=
  if a.llm_provider = ("openai").data then .ok .openai
  else if a.llm_provider = ("anthropic").data then .ok .anthropic
  else .error (.valueError (("Unknown LLM provider: ").data ++ a.llm_provider))

/-- `Agent.invoke`: resets the history unless `continue_conversation`,
appends the user turn, calls the provider API (`_call_openai` /
`_call_anthropic`, both of which first acquire the client via
`_get_client` and then send the full history), appends the assistant
turn, and returns the structured response.  The second component of the
result is the completion-call trace, extended by one entry when and only
when the capability was actually invoked. -/
def Agent.invoke (oracle : Oracle) (a : Agent) (user_message : List Char)
    (continue_conversation : Bool) (tr : List CompletionCall) :
    Except PyError (Agent × AgentResponse) × List CompletionCall :=
  let hist0 := if continue_conversation then a.history else []
  let hist1 := hist0 ++ [Turn.mk .user user_message]
  match a.getClient with
  | .error e => (.error e, tr)
  | .ok _ =>
      let raw := oracle a.role hist1
      let hist2 := hist1 ++ [Turn.mk .assistant raw]
      (.ok ({ a with history := hist2 },
        { role := a.role, content := raw, raw_response := raw }),
        tr ++ [CompletionCall.mk a.role hist1])

/-- Fixed framing before the financial data in the Bull initial prompt. -/
def bullInitialSuffix : List Char :=
  ("\n\nAnalyze this stock and provide your bullish investment thesis.").data

/-- `BullAgent.analyze_initial`: resets the conversation and sends the
financial data with the fixed instruction suffix, starting fresh. -/
def BullAgent.analyze_initial (oracle : Oracle) (a : Agent)
    (financial_data : List Char) (tr : List CompletionCall) :
    Except PyError (Agent × AgentResponse) × List CompletionCall :=
  Agent.invoke oracle { a with history := [] }
    (financial_data ++ bullInitialSuffix) false tr

/-- Fixed framing preceding the opponent key points in the Bull rebuttal
prompt. -/
def bullRebuttalPre : List Char :=
  ("The Bear has responded with these concerns:\n\n").data

/-- Fixed framing following the opponent key points in the Bull rebuttal
prompt. -/
def bullRebuttalPost : List Char :=
  ("\n\nProvide your REBUTTAL addressing these concerns. Reinforce your bullish thesis.").data

/-- `BullAgent.analyze_rebuttal`: extracts the opponent's key points
(when `use_key_points_only`), wraps them in the fixed framing, and
invokes with `continue_conversation=True` — no reset, no resend of the
financial data by the agent itself. -/
def BullAgent.analyze_rebuttal (oracle : Oracle) (a : Agent)
    (bear_thesis : List Char) (use_key_points_only : Bool)
    (tr : List CompletionCall) :
    Except PyError (Agent × AgentResponse) × List CompletionCall :=
  let bear_points :=
    if use_key_points_only then extract_key_points bear_thesis else bear_thesis
  Agent.invoke oracle a (bullRebuttalPre ++ bear_points ++ bullRebuttalPost) true tr

/-- Fixed framing for the Bear initial prompt. -/
def bearInitialSuffix : List Char :=
  ("\n\nAnalyze this stock and provide your bearish investment thesis.").data

/-- `BearAgent.analyze_initial`. -/
def BearAgent.analyze_initial (oracle : Oracle) (a : Agent)
    (financial_data : List Char) (tr : List CompletionCall) :
    Except PyError (Agent × AgentResponse) × List CompletionCall :=
  Agent.invoke oracle { a with history := [] }
    (financial_data ++ bearInitialSuffix) false tr

/-- Fixed framing preceding the opponent key points in the Bear rebuttal
prompt. -/
def bearRebuttalPre : List Char :=
  ("The Bull has responded with these arguments:\n\n").data

/-- Fixed framing following the opponent key points in the Bear rebuttal
prompt. -/
def bearRebuttalPost : List Char :=
  ("\n\nProvide your REBUTTAL addressing this overoptimism. Reinforce your bearish thesis.").data

/-- `BearAgent.analyze_rebuttal`. -/
def BearAgent.analyze_rebuttal (oracle : Oracle) (a : Agent)
    (bull_thesis : List Char) (use_key_points_only : Bool)
    (tr : List CompletionCall) :
    Except PyError (Agent × AgentResponse) × List CompletionCall :=
  let bull_points :=
    if use_key_points_only then extract_key_points bull_thesis else bull_thesis
  Agent.invoke oracle a (bearRebuttalPre ++ bull_points ++ bearRebuttalPost) true tr

/-- Framing pieces of the Portfolio Manager decision prompt
(`\x27` is the ASCII apostrophe). -/
def pmPromptBull : List Char := ("\n\nBULL\x27S KEY ARGUMENTS:\n").data

/-- Second framing piece of the decision prompt. -/
def pmPromptBear : List Char := ("\n\nBEAR\x27S KEY ARGUMENTS:\n").data

/-- Final framing piece of the decision prompt. -/
def pmPromptTail : List Char :=
  ("\n\nAs Portfolio Manager, weigh both arguments and make your final decision: BUY, SELL, or HOLD.\nProvide clear justification for your choice.").data

/-- `PortfolioManagerAgent.make_decision`: reduces both theses to key
points (when `use_key_points_only`) and makes a single fresh-history
call. -/
def PortfolioManagerAgent.make_decision (oracle : Oracle) (a : Agent)
    (financial_data bull_thesis bear_thesis : List Char)
    (use_key_points_only : Bool) (tr : List CompletionCall) :
    Except PyError (Agent × AgentResponse) × List CompletionCall :=
  let bull_points :=
    if use_key_points_only then extract_key_points bull_thesis else bull_thesis
  let bear_points :=
    if use_key_points_only then extract_key_points bear_thesis else bear_thesis
  Agent.invoke oracle a
    (financial_data ++ pmPromptBull ++ bull_points ++ pmPromptBear ++ bear_points
      ++ pmPromptTail) false tr

/-- The fetch result consumed by the orchestrator (`FinancialMetrics`):
only the `error` field steers control flow; the numeric fields reach the
agents only through the formatted text payload, modelled here by the
`formatted` field (the output of `format_metrics_for_agent`, whose
floating-point rendering is outside this embedding). -/
structure Metrics where
  error : Option (List Char)
  formatted : List Char
  deriving DecidableEq, Repr

/-- Per-role provider configuration from `load_environment`. -/
structure Providers where
  bull : List Char
  bear : List Char
  pm : List Char
  deriving DecidableEq, Repr

/-- `run_investment_committee` from `main.py`, with the terminal
presentation stripped: on a fetch error it returns early — before any
agent is constructed or invoked — producing no decision; otherwise it
constructs the three agents and drives initial analysis, rebuttals and
the final decision, parsing the manager response.  The result pairs the
outcome (`none` on the early error return, `some decision` on
completion, or the first uncaught agent exception) with the
completion-call trace. -/
def run_investment_committee (metrics : Metrics) (providers : Providers)
    (oracle : Oracle) :
    Except PyError (Option PortfolioDecision) × List CompletionCall :=
  match metrics.error with
  | some _ => (.ok none, [])
  | none =>
    let financial_data := metrics.formatted
    let bull_agent := Agent.init .bull providers.bull
    let bear_agent := Agent.init .bear providers.bear
    let pm_agent := Agent.init .portfolio_manager providers.pm
    match BullAgent.analyze_initial oracle bull_agent financial_data [] with
    | (.error e, tr) => (.error e, tr)
    | (.ok (bull1, bullResp), tr1) =>
      match BearAgent.analyze_initial oracle bear_agent financial_data tr1 with
      | (.error e, tr) => (.error e, tr)
      | (.ok (bear1, bearResp), tr2) =>
        match BullAgent.analyze_rebuttal oracle bull1 bearResp.content true tr2 with
        | (.error e, tr) => (.error e, tr)
        | (.ok (_bull2, bullReb), tr3) =>
          match BearAgent.analyze_rebuttal oracle bear1 bullResp.content true tr3 with
          | (.error e, tr) => (.error e, tr)
          | (.ok (_bear2, bearReb), tr4) =>
            match PortfolioManagerAgent.make_decision oracle pm_agent
                financial_data bullReb.content bearReb.content true tr4 with
            | (.error e, tr) => (.error e, tr)
            | (.ok (_pm1, pmResp), tr5) =>
              (.ok (some (parse_decision pmResp.content)), tr5)

/-! ### The TTL file cache (`cache.py`)

Cache keys are modelled as lists of character code points (`List Nat`),
time as natural-number seconds, and the JSON-serializable payload as an
arbitrary type parameter `Data` (JSON serialization round-trips such
payloads; payload values expressible as Lean data are acyclic, so the
`json.dump` circular-reference case cannot arise).  The `md5` content
hash from Python's standard library is external to the repository and is
modelled as an arbitrary function parameter `hash`.  The cache directory
is modelled as an association list from file path to stored content. -/

/-- Python `str.lower()` on one ASCII code point, as applied to cache
keys (ticker symbols). -/
def lowerCode (n : Nat) : Nat := if 65 ≤ n ∧ n ≤ 90 then n + 32 else n

/-- Python `str.upper()` on one ASCII code point. -/
def upperCode (n : Nat) : Nat := if 97 ≤ n ∧ n ≤ 122 then n - 32 else n

/-- `key.lower()`. -/
def keyLower (k : List Nat) : List Nat := k.map lowerCode

/-- `key.upper()`. -/
def keyUpper (k : List Nat) : List Nat := k.map upperCode

/-- What a stored cache file can hold, by how `FileCache.get` reacts to
it.  The first-step classification mirrors the Python read path
`json.load` → subscripting → `datetime.fromisoformat` → `CacheEntry`:
`malformed` is a file that is not JSON (`json.JSONDecodeError`, caught);
`nonDict` is valid JSON whose top level is not an object, so
`entry_data["key"]` raises `TypeError` (not in the except clause);
`missingField` is an object lacking one of the four fields (`KeyError`,
caught); `badDateString` is a date field holding an unparseable string
(`ValueError` from `fromisoformat`, caught); `nonStrDate` is a date
field holding a non-string, so `fromisoformat` raises `TypeError` (not
caught); `badFieldType` is an ill-typed `key`/`data` field (pydantic
`ValidationError`, a `ValueError` subclass, caught); `valid` is a
well-formed entry. -/
inductive Stored (Data : Type) where
  | malformed
  | nonDict
  | missingField
  | badDateString
  | nonStrDate
  | badFieldType
  | valid (key : List Nat) (data : Data) (created_at : Nat) (expires_at : Nat)
  deriving DecidableEq, Repr

/-- The cache directory: file path (list of code points) to content. -/
def FS (Data : Type) : Type := List (List Nat × Stored Data)

/-- Read a file if it exists. -/
def readFile {Data : Type} (fs : FS Data) (p : List Nat) : Option (Stored Data) :=
  (fs.find? (fun e => decide (e.1 = p))).map (·.2)

/-- `open(path, "w")`: replace or create the file. -/
def writeFile {Data : Type} (fs : FS Data) (p : List Nat) (c : Stored Data) : FS Data :=
  fs.filter (fun e => decide (e.1 ≠ p)) ++ [(p, c)]

/-- `path.unlink(missing_ok=True)`. -/
def removeFile {Data : Type} (fs : FS Data) (p : List Nat) : FS Data :=
  fs.filter (fun e => decide (e.1 ≠ p))

/-- `CacheConfig` from `cache.py` (the `cache_dir` string and
`max_entries` soft cap steer no embedded control flow). -/
structure CacheConfig where
  enabled : Bool
  default_ttl_hours : Nat
  deriving DecidableEq, Repr

/-- `FileCache._get_cache_file`: `f"{key.upper()}_{md5(key.lower())[:16]}.json"`
— the upper-cased key, an underscore (code 95), the hash of the
lower-cased key, and the `.json` suffix. -/
def cacheFilePath (hash : List Nat → List Nat) (key : List Nat) : List Nat :=
  keyUpper key ++ (95 :: hash (keyLower key)) ++ [46, 106, 115, 111, 110]

/-- `FileCache.get`: `None` when disabled or the file is missing; on a
stored entry, parse it — the caught corruption cases delete the file and
return `None`, the two `TypeError` cases propagate, and a well-formed
entry is expiry-checked (`datetime.now() > expires_at`), deleted and
dropped when stale, returned otherwise.  The result pairs the returned
value with the cache directory after the call. -/
def FileCache.get {Data : Type} (hash : List Nat → List Nat) (cfg : CacheConfig)
    (fs : FS Data) (key : List Nat) (now : Nat) :
    Except PyError (Option Data × FS Data) :=
  if cfg.enabled then
    let p := cacheFilePath hash key
    match readFile fs p with
    | none => .ok (none, fs)
    | some .malformed => .ok (none, removeFile fs p)
    | some .nonDict => .error .typeError
    | some .missingField => .ok (none, removeFile fs p)
    | some .badDateString => .ok (none, removeFile fs p)
    | some .nonStrDate => .error .typeError
    | some .badFieldType => .ok (none, removeFile fs p)
    | some (.valid _ d _ e) =>
        if now > e then .ok (none, removeFile fs p) else .ok (some d, fs)
  else .ok (none, fs)

/-- How the try-block of `FileCache.set` can end.  `success` is a
complete write.  The two failure shapes model `OSError`/`TypeError`
raised inside the block: `failOpen` is `open(cache_file, "w")` itself
raising, before the file is touched; `failAfterOpen left` is a failure
once the file is open — `open(..., "w")` has already truncated it and
`json.dump` streams into it, so whatever truncated or partially written
content made it to disk is left behind as `left` (typically
`.malformed`, a strict prefix of a JSON document not being valid JSON
itself). -/
inductive WriteOutcome (Data : Type) where
  | success
  | failOpen
  | failAfterOpen (left : Stored Data)
  deriving DecidableEq, Repr

/-- `FileCache.set`: no-op when disabled; otherwise computes the TTL
(per-call override or configured default), builds the entry with
`key.upper()` and `expires_at = now + ttl` hours (3600 seconds each),
and writes it.  A failing write (`OSError`/`TypeError`, see
`WriteOutcome`) is caught and a warning is printed (the returned flag);
the operation never raises, but it is not atomic: failing after `open`
leaves the truncated or partial file at the path. -/
def FileCache.set {Data : Type} (hash : List Nat → List Nat) (cfg : CacheConfig)
    (fs : FS Data) (key : List Nat) (data : Data) (ttl_hours : Option Nat)
    (now : Nat) (outcome : WriteOutcome Data) :
    Except PyError (FS Data × Bool) :=
  if cfg.enabled then
    let ttl := match ttl_hours with
      | some t => t
      | none => cfg.default_ttl_hours
    let p := cacheFilePath hash key
    match outcome with
    | .success =>
        .ok (writeFile fs p (.valid (keyUpper key) data now (now + ttl * 3600)), false)
    | .failOpen => .ok (fs, true)
    | .failAfterOpen left => .ok (writeFile fs p left, true)
  else .ok (fs, false)

/-- One step of `FileCache.stats`: whether a stored file counts as
expired.  As in `get`, a `nonDict` or `nonStrDate` file raises an
uncaught `TypeError`; the caught corruption cases count as expired.
Known coarseness: the Python loop reads only `expires_at`, so a file
whose only defect is a missing or ill-typed `key`/`data` field would be
date-checked there rather than counted expired; the `Stored`
constructors classify files by the read path of `get`, and this
divergence is confined to the expired counter, which no claim theorem
below inspects (they use only the entry counter and the ok/error
classification, both faithful). -/
def Stored.expiredFlag {Data : Type} (c : Stored Data) (now : Nat) :
    Except PyError Bool :=
  match c with
  | .malformed => .ok true
  | .nonDict => .error .typeError
  | .missingField => .ok true
  | .badDateString => .ok true
  | .nonStrDate => .error .typeError
  | .badFieldType => .ok true
  | .valid _ _ _ e => .ok (decide (now > e))

/-- `FileCache.stats` (entry and expired counters; the byte size of the
files is outside this embedding): every `*.json` file counts one entry,
and is parsed to decide whether it is expired.  Corrupt files are
classified by the constructors of `Stored`, which follow the read path
of `get`; the claims below only use the entry counter, which Python
increments before parsing each file. -/
def FileCache.stats {Data : Type} (fs : FS Data) (now : Nat) :
    Except PyError (Nat × Nat) :=
  match fs with
  | [] => .ok (0, 0)
  | (_, c) :: rest =>
      match c.expiredFlag now, FileCache.stats rest now with
      | .error e, _ => .error e
      | _, .error e => .error e
      | .ok b, .ok (n, m) => .ok (n + 1, m + (if b then 1 else 0))

/-! ### Properties of `pyFind` -/

/-- If `pyFind` reports an occurrence at `i`, the pattern is a prefix of
the suffix of `s` starting at `i`. -/
theorem pyFind_isPrefix_of_some {p : List Char} :
    ∀ {s : List Char} {i : Nat}, pyFind p s = some i → p <+: s.drop i := by
  intro s
  induction s with
  | nil =>
    intro i h
    simp only [pyFind] at h
    split at h
    · rename_i hpre
      cases h
      simpa using List.isPrefixOf_iff_prefix.mp hpre
    · exact absurd h (by simp)
  | cons c cs ih =>
    intro i h
    simp only [pyFind] at h
    split at h
    · rename_i hpre
      cases h
      simpa using List.isPrefixOf_iff_prefix.mp hpre
    · rcases Option.map_eq_some'.mp h with ⟨i', hi', rfl⟩
      simpa using ih hi'

/-- `pyFind` reports the first occurrence: no occurrence starts earlier. -/
theorem pyFind_min_of_some {p : List Char} :
    ∀ {s : List Char} {i : Nat}, pyFind p s = some i →
      ∀ k, k < i → ¬ p <+: s.drop k := by
  intro s
  induction s with
  | nil =>
    intro i h
    simp only [pyFind] at h
    split at h
    · cases h
      omega
    · exact absurd h (by simp)
  | cons c cs ih =>
    intro i h
    simp only [pyFind] at h
    split at h
    · cases h
      omega
    · rename_i hpre
      rcases Option.map_eq_some'.mp h with ⟨i', hi', rfl⟩
      intro k hk
      match k with
      | 0 =>
        simpa using fun hcon => hpre ( List.isPrefixOf_iff_prefix.mpr hcon)
      | k + 1 =>
        simpa using ih hi' k (by omega)

/-- If `pyFind` fails there is no occurrence anywhere. -/
theorem pyFind_not_isPrefix_of_none {p : List Char} :
    ∀ {s : List Char}, pyFind p s = none → ∀ k, ¬ p <+: s.drop k := by
  intro s
  induction s with
  | nil =>
    intro h k
    simp only [pyFind] at h
    split at h
    · exact absurd h (by simp)
    · rename_i hpre
      simpa using fun hcon => hpre ( List.isPrefixOf_iff_prefix.mpr hcon)
  | cons c cs ih =>
    intro h k
    simp only [pyFind] at h
    split at h
    · exact absurd h (by simp)
    · rename_i hpre
      rcases Option.map_eq_none'.mp h with hnone
      match k with
      | 0 =>
        simpa using fun hcon => hpre ( List.isPrefixOf_iff_prefix.mpr hcon)
      | k + 1 =>
        simpa using ih hnone k

/-- Converse: `pyFind` fails when there is no occurrence. -/
theorem pyFind_none_of_no_occurrence {p s : List Char}
    (h : ∀ k, ¬ p <+: s.drop k) : pyFind p s = none := by
  cases hf : pyFind p s with
  | none => rfl
  | some i => exact absurd (pyFind_isPrefix_of_some hf) (h i)

/-- An absent pattern stays absent in any suffix. -/
theorem pyFind_drop_none {p s : List Char} (h : pyFind p s = none) (m : Nat) :
    pyFind p (s.drop m) = none := by
  refine pyFind_none_of_no_occurrence fun k => ?_
  rw [List.drop_drop, Nat.add_comm]
  exact pyFind_not_isPrefix_of_none h (k + m)

/-- `pyStrip` returns a contiguous substring of its argument. -/
theorem pyStrip_middle (l : List Char) : ∃ u v, u ++ pyStrip l ++ v = l := by
  obtain ⟨w, hw⟩ := List.rdropWhile_prefix isPySpace (l.dropWhile isPySpace)
  obtain ⟨u, hu⟩ := (List.dropWhile_suffix isPySpace : _ <:+ l)
  exact ⟨u, w, by simp only [pyStrip]; rw [List.append_assoc, hw, hu]⟩

/-- An occurrence of `p` inside a contiguous substring of `b` is an
occurrence inside `b`. -/
theorem occurrence_of_middle {p a u v b : List Char} {k : Nat}
    (hb : u ++ a ++ v = b) (h : p <+: a.drop k) : ∃ m, p <+: b.drop m := by
  refine ⟨u.length + min k a.length, ?_⟩
  subst hb
  rw [List.append_assoc]
  rw [List.drop_append]
  have hdk : a.drop (min k a.length) = a.drop k := by
    rcases Nat.le_total k a.length with hle | hle
    · rw [Nat.min_eq_left hle]
    · rw [Nat.min_eq_right hle, List.drop_eq_nil_of_le hle,
        List.drop_eq_nil_of_le (Nat.le_refl _)]
  rw [List.drop_append_of_le_length (Nat.min_le_right k a.length), hdk]
  exact h.trans (List.prefix_append _ _)

/-- A prefix of a `take` is a prefix of the whole list. -/
theorem isPrefix_of_isPrefix_take {p l : List Char} {n : Nat}
    (h : p <+: l.take n) : p <+: l :=
  h.trans ( List.take_prefix n l)

/-- Inversion of a successful `extractMatch`. -/
theorem extractMatch_eq_some {s r : List Char} (h : extractMatch s = some r) :
    ∃ i j, pyFind kOpen s = some i ∧
      pyFind kClose (s.drop (i + kOpen.length)) = some j ∧
      r = pyStrip ((s.drop (i + kOpen.length)).take j) := by
  unfold extractMatch at h
  split at h
  · exact absurd h (by simp)
  · rename_i i hi
    split at h
    · exact absurd h (by simp)
    · rename_i j hj
      exact ⟨i, j, hi, hj, (Option.some_inj.mp h).symm⟩

/-- The group matched by the first-pair, non-greedy regex of
`extract_key_points` never contains a closing `</key_points>` tag. -/
theorem extractMatch_no_close {s r : List Char} (h : extractMatch s = some r) :
    pyFind kClose r = none := by
  obtain ⟨i, j, hi, hj, hr⟩ := extractMatch_eq_some h
  refine pyFind_none_of_no_occurrence fun k hk => ?_
  rw [hr] at hk
  obtain ⟨u, v, huv⟩ := pyStrip_middle ((s.drop (i + kOpen.length)).take j)
  obtain ⟨m, hm⟩ := occurrence_of_middle huv hk
  rw [List.drop_take] at hm
  have hmj : m < j := by
    by_contra hge
    have hjm : j - m = 0 := by omega
    rw [hjm, List.take_zero, List.prefix_nil] at hm
    exact absurd hm (by decide)
  exact pyFind_min_of_some hj m hmj (isPrefix_of_isPrefix_take hm)

/-- A text with no `</key_points>` occurrence has no regex match. -/
theorem extractMatch_none_of_no_close {r : List Char}
    (h : pyFind kClose r = none) : extractMatch r = none := by
  unfold extractMatch
  split
  · rfl
  · rename_i i _
    rw [pyFind_drop_none h]

/-- `decisionLookup` succeeds on exactly the enum member names. -/
theorem decisionLookup_name (d : Decision) :
    decisionLookup (Decision.name d) = .ok d := by
  cases d <;> rfl

/-- `decisionLookup` raises `KeyError` on anything that is not a name. -/
theorem decisionLookup_error {s : List Char} (h : ∀ d, Decision.name d ≠ s) :
    decisionLookup s = .error () := by
  unfold decisionLookup
  rw [if_neg fun he => h .BUY he.symm, if_neg fun he => h .SELL he.symm,
    if_neg fun he => h .HOLD he.symm]

/-! ### Properties of the file cache -/

/-- Code points with the same lower-casing have the same upper-casing
(each ASCII letter pair is a two-element case class). -/
theorem upperCode_eq_of_lowerCode_eq {a b : Nat} (h : lowerCode a = lowerCode b) :
    upperCode a = upperCode b := by
  simp only [lowerCode] at h
  simp only [upperCode]
  split_ifs at h ⊢ <;> omega

/-- Keys equal up to letter case have equal upper-casings. -/
theorem keyUpper_eq_of_keyLower_eq :
    ∀ {k k' : List Nat}, keyLower k = keyLower k' → keyUpper k = keyUpper k' := by
  intro k
  induction k with
  | nil =>
    intro k' h
    cases k' with
    | nil => rfl
    | cons b bs => simp [keyLower] at h
  | cons a as ih =>
    intro k' h
    cases k' with
    | nil => simp [keyLower] at h
    | cons b bs =>
      simp only [keyLower, List.map_cons, List.cons.injEq] at h
      simp only [keyUpper, List.map_cons, List.cons.injEq]
      exact ⟨upperCode_eq_of_lowerCode_eq h.1,
        by simpa [keyUpper] using @ih bs (by simpa [keyLower] using h.2)⟩

/-- Keys equal up to letter case map to the same cache file. -/
theorem cacheFilePath_eq_of_keyLower_eq (hash : List Nat → List Nat)
    {k k' : List Nat} (h : keyLower k = keyLower k') :
    cacheFilePath hash k = cacheFilePath hash k' := by
  unfold cacheFilePath
  rw [keyUpper_eq_of_keyLower_eq h, h]

/-- Reading back a freshly written file returns the written content. -/
theorem readFile_writeFile {Data : Type} (fs : FS Data) (p : List Nat)
    (c : Stored Data) : readFile (writeFile fs p c) p = some c := by
  simp [writeFile, readFile]

/-- A removed file is gone. -/
theorem readFile_removeFile {Data : Type} (fs : FS Data) (p : List Nat) :
    readFile (removeFile fs p) p = none := by
  simp [removeFile, readFile]

/-- Removing an existing file from a directory with distinct paths
shrinks it by exactly one entry. -/
theorem removeFile_length {Data : Type} :
    ∀ (fs : FS Data) (p : List Nat) (c : Stored Data),
      readFile fs p = some c → (fs.map Prod.fst).Nodup →
      (removeFile fs p).length + 1 = fs.length := by
  intro fs
  induction fs with
  | nil =>
    intro p c h
    simp [readFile] at h
  | cons hd rest ih =>
    intro p c h hnd
    simp only [List.map_cons, List.nodup_cons] at hnd
    by_cases hq : hd.1 = p
    · have hrest : removeFile rest p = rest := by
        apply List.filter_eq_self.mpr
        intro e he
        simp only [decide_eq_true_eq]
        intro heq
        have hmem : e.1 ∈ List.map Prod.fst rest := List.mem_map_of_mem Prod.fst he
        rw [heq, ← hq] at hmem
        exact hnd.1 hmem
      have hcons : removeFile (hd :: rest) p = removeFile rest p := by
        simp [removeFile, List.filter_cons, hq]
      rw [hcons, hrest]
      simp
    · have hread : readFile rest p = some c := by
        simpa [readFile, List.find?, hq] using h
      have := ih p c hread hnd.2
      simpa [removeFile, List.filter_cons, hq] using this

/-- The first component of a successful `stats` is the file count. -/
theorem stats_entries {Data : Type} :
    ∀ (fs : FS Data) (now n m : Nat),
      FileCache.stats fs now = .ok (n, m) → n = fs.length := by
  intro fs
  induction fs with
  | nil =>
    intro now n m h
    simp only [FileCache.stats] at h
    cases h
    rfl
  | cons hd rest ih =>
    intro now n m h
    simp only [FileCache.stats] at h
    split at h
    · exact absurd h (by simp)
    · exact absurd h (by simp)
    · rename_i b n0 m0 hflag hrest
      cases h
      simpa using ih now n0 m0 hrest

/-! ### The claims -/

/-- C5: a `get` on a key whose stored entry has expired (strictly past
`expires_at`) returns absent and deletes the stale entry, so the file is
gone and a subsequent `stats` counts one entry fewer; and `get` never
returns an expired payload — a successful payload return always comes
from an unexpired well-formed entry, with the directory untouched. -/
theorem C5_expired_get_deletes :
    (∀ (Data : Type) (hash : List Nat → List Nat) (cfg : CacheConfig)
      (fs : FS Data) (key kk : List Nat) (d : Data) (c e now : Nat),
      cfg.enabled = true →
      readFile fs (cacheFilePath hash key) = some (.valid kk d c e) →
      e < now →
      FileCache.get hash cfg fs key now =
        .ok (none, removeFile fs (cacheFilePath hash key)) ∧
      readFile (removeFile fs (cacheFilePath hash key)) (cacheFilePath hash key) = none ∧
      ((fs.map Prod.fst).Nodup →
        ∀ n m, FileCache.stats (removeFile fs (cacheFilePath hash key)) now = .ok (n, m) →
          n + 1 = fs.length)) ∧
    (∀ (Data : Type) (hash : List Nat → List Nat) (cfg : CacheConfig)
      (fs : FS Data) (key : List Nat) (now : Nat) (d : Data) (fs' : FS Data),
      FileCache.get hash cfg fs key now = .ok (some d, fs') →
      ∃ kk c e, readFile fs (cacheFilePath hash key) = some (.valid kk d c e) ∧
        ¬ now > e ∧ fs' = fs) := by
  constructor
  · intro Data hash cfg fs key kk d c e now hcfg hread hlt
    have hget : FileCache.get hash cfg fs key now =
        .ok (none, removeFile fs (cacheFilePath hash key)) := by
      simp only [FileCache.get, hcfg, if_true, hread]
      rw [if_pos (by omega)]
    refine ⟨hget, readFile_removeFile fs _, ?_⟩
    intro hnd n m hst
    have h1 := stats_entries _ now n m hst
    have h2 := removeFile_length fs (cacheFilePath hash key) _ hread hnd
    omega
  · intro Data hash cfg fs key now d fs' h
    simp only [FileCache.get] at h
    split at h
    · split at h
      · exact absurd h (by simp)
      · exact absurd h (by simp)
      · exact absurd h (by simp)
      · exact absurd h (by simp)
      · exact absurd h (by simp)
      · exact absurd h (by simp)
      · exact absurd h (by simp)
      · rename_i kk d0 c0 e0 hread
        split at h
        · exact absurd h (by simp)
        · rename_i hexp
          refine ⟨kk, c0, e0, ?_⟩
          rcases h with ⟨rfl, rfl⟩
          exact ⟨hread, hexp, rfl⟩
    · exact absurd h (by simp)

/-- Witness for C5: `set(k, v, ttl_hours=0)` at time 0 then `get(k)` at
time 1 returns absent and removes the file. -/
theorem C5_witness :
    FileCache.get id (CacheConfig.mk true 24)
      [(cacheFilePath id [97], Stored.valid (keyUpper [97]) (5 : Nat) 0 0)] [97] 1 =
      .ok (none, removeFile
        [(cacheFilePath id [97], Stored.valid (keyUpper [97]) (5 : Nat) 0 0)]
        (cacheFilePath id [97])) ∧
    readFile (removeFile
      [(cacheFilePath id [97], Stored.valid (keyUpper [97]) (5 : Nat) 0 0)]
      (cacheFilePath id [97])) (cacheFilePath id [97]) = none :=
  ⟨(C5_expired_get_deletes.1 Nat id (CacheConfig.mk true 24)
      [(cacheFilePath id [97], Stored.valid (keyUpper [97]) (5 : Nat) 0 0)]
      [97] (keyUpper [97]) 5 0 0 1 rfl rfl (by decide)).1,
    (C5_expired_get_deletes.1 Nat id (CacheConfig.mk true 24)
      [(cacheFilePath id [97], Stored.valid (keyUpper [97]) (5 : Nat) 0 0)]
      [97] (keyUpper [97]) 5 0 0 1 rfl rfl (by decide)).2.1⟩

/-- C6: cache round-trip with case-insensitive keying — for every
enabled cache, payload, TTL and keys equal up to letter case, lookup and
storage route through the same normalized storage identifier
(upper-cased key plus the hash of the lower-cased key), so a `set`
followed immediately by a `get` under the other key spelling returns the
payload. -/
theorem C6_roundtrip_case_insensitive :
    ∀ (Data : Type) (hash : List Nat → List Nat) (cfg : CacheConfig)
      (fs : FS Data) (k k' : List Nat) (v : Data) (ttl now : Nat),
      cfg.enabled = true →
      keyLower k = keyLower k' →
      cacheFilePath hash k = cacheFilePath hash k' ∧
      FileCache.set hash cfg fs k v (some ttl) now .success =
        .ok (writeFile fs (cacheFilePath hash k)
          (.valid (keyUpper k) v now (now + ttl * 3600)), false) ∧
      FileCache.get hash cfg
        (writeFile fs (cacheFilePath hash k)
          (.valid (keyUpper k) v now (now + ttl * 3600))) k' now =
        .ok (some v, writeFile fs (cacheFilePath hash k)
          (.valid (keyUpper k) v now (now + ttl * 3600))) := by
  intro Data hash cfg fs k k' v ttl now hcfg hkey
  have hpath := cacheFilePath_eq_of_keyLower_eq hash hkey
  refine ⟨hpath, ?_, ?_⟩
  · simp [FileCache.set, hcfg]
  · simp only [FileCache.get, hcfg, if_true, ← hpath, readFile_writeFile]
    rw [if_neg (by omega)]

/-- Witness for C6: key `nVdA` stored, key `NvDa` read back. -/
theorem C6_witness :
    cacheFilePath id [110, 86, 100, 65] = cacheFilePath id [78, 118, 68, 97] ∧
    FileCache.set id (CacheConfig.mk true 24) ([] : FS Nat)
      [110, 86, 100, 65] 7 (some 1) 0 .success =
      .ok (writeFile [] (cacheFilePath id [110, 86, 100, 65])
        (.valid (keyUpper [110, 86, 100, 65]) 7 0 3600), false) ∧
    FileCache.get id (CacheConfig.mk true 24)
      (writeFile [] (cacheFilePath id [110, 86, 100, 65])
        (.valid (keyUpper [110, 86, 100, 65]) 7 0 3600)) [78, 118, 68, 97] 0 =
      .ok (some 7, writeFile [] (cacheFilePath id [110, 86, 100, 65])
        (.valid (keyUpper [110, 86, 100, 65]) 7 0 3600)) :=
  C6_roundtrip_case_insensitive Nat id (CacheConfig.mk true 24) []
    [110, 86, 100, 65] [78, 118, 68, 97] 7 1 0 rfl (by decide)

/-- C7 counterexample: a stored cache file holding valid JSON whose top
level is not an object (e.g. the array `[1, 2]`) makes `get` raise an
uncaught `TypeError` from `entry_data["key"]` — the except clause of
`FileCache.get` names only `json.JSONDecodeError`, `KeyError` and
`ValueError`, so this corruption is not treated as "not found" and the
read raises to the caller. -/
theorem C7_counterexample :
    FileCache.get id (CacheConfig.mk true 24)
      [(cacheFilePath id [107], (Stored.nonDict : Stored Nat))] [107] 0 =
      .error .typeError := rfl

/-- C7 (amended): cache faults are contained except for two corruption
shapes — `get` on an entry whose load or parse raises
`json.JSONDecodeError`, `KeyError` or `ValueError` deletes the file and
returns absent exactly as if not found, and `set` never raises: a
storage failure (`OSError`/`TypeError`) is swallowed with a warning
signal, though not atomically — when `open` itself failed the directory
is unchanged, while a failure after `open` leaves the truncated or
partially written file at the path, since `open(file, "w")` truncates
before `json.dump` streams; but a stored file whose JSON top level is
not an object, or whose date fields are non-strings, raises an uncaught
`TypeError` from `get`. -/
theorem C7_cache_faults_contained :
    (∀ (Data : Type) (hash : List Nat → List Nat) (cfg : CacheConfig)
      (fs : FS Data) (key : List Nat) (now : Nat) (c : Stored Data),
      cfg.enabled = true →
      readFile fs (cacheFilePath hash key) = some c →
      (c = .malformed ∨ c = .missingField ∨ c = .badDateString ∨ c = .badFieldType) →
      FileCache.get hash cfg fs key now =
        .ok (none, removeFile fs (cacheFilePath hash key))) ∧
    (∀ (Data : Type) (hash : List Nat → List Nat) (cfg : CacheConfig)
      (fs : FS Data) (key : List Nat) (v : Data) (ttl : Option Nat)
      (now : Nat) (outcome : WriteOutcome Data),
      ∃ r, FileCache.set hash cfg fs key v ttl now outcome = .ok r) ∧
    (∀ (Data : Type) (hash : List Nat → List Nat) (cfg : CacheConfig)
      (fs : FS Data) (key : List Nat) (v : Data) (ttl : Option Nat) (now : Nat),
      cfg.enabled = true →
      FileCache.set hash cfg fs key v ttl now .failOpen = .ok (fs, true) ∧
      (∀ left, FileCache.set hash cfg fs key v ttl now (.failAfterOpen left) =
        .ok (writeFile fs (cacheFilePath hash key) left, true))) ∧
    (∀ (Data : Type) (hash : List Nat → List Nat) (cfg : CacheConfig)
      (fs : FS Data) (key : List Nat) (now : Nat) (c : Stored Data),
      cfg.enabled = true →
      readFile fs (cacheFilePath hash key) = some c →
      (c = .nonDict ∨ c = .nonStrDate) →
      FileCache.get hash cfg fs key now = .error .typeError) := by
  refine ⟨?_, ?_, ?_, ?_⟩
  · intro Data hash cfg fs key now c hcfg hread hc
    rcases hc with rfl | rfl | rfl | rfl <;>
      simp [FileCache.get, hcfg, hread]
  · intro Data hash cfg fs key v ttl now outcome
    cases hcfg : cfg.enabled <;> cases outcome <;>
      simp [FileCache.set, hcfg]
  · intro Data hash cfg fs key v ttl now hcfg
    constructor
    · simp [FileCache.set, hcfg]
    · intro left
      simp [FileCache.set, hcfg]
  · intro Data hash cfg fs key now c hcfg hread hc
    rcases hc with rfl | rfl <;>
      simp [FileCache.get, hcfg, hread]

/-- Witness for C7 (amended): a malformed (non-JSON) file is deleted and
reported absent; a write whose `open` failed leaves the directory
unchanged with a warning, while a write failing after `open` leaves a
truncated (malformed) file at the path, also with a warning. -/
theorem C7_witness :
    FileCache.get id (CacheConfig.mk true 24)
      [(cacheFilePath id [107], (Stored.malformed : Stored Nat))] [107] 0 =
      .ok (none, removeFile
        [(cacheFilePath id [107], (Stored.malformed : Stored Nat))]
        (cacheFilePath id [107])) ∧
    FileCache.set id (CacheConfig.mk true 24) ([] : FS Nat) [107] 9 none 0
      .failOpen = .ok ([], true) ∧
    FileCache.set id (CacheConfig.mk true 24) ([] : FS Nat) [107] 9 none 0
      (.failAfterOpen .malformed) =
      .ok (writeFile [] (cacheFilePath id [107]) .malformed, true) :=
  ⟨C7_cache_faults_contained.1 Nat id (CacheConfig.mk true 24)
      [(cacheFilePath id [107], (Stored.malformed : Stored Nat))] [107] 0
      Stored.malformed rfl rfl (Or.inl rfl),
    (C7_cache_faults_contained.2.2.1 Nat id (CacheConfig.mk true 24) [] [107] 9
      none 0 rfl).1,
    (C7_cache_faults_contained.2.2.1 Nat id (CacheConfig.mk true 24) [] [107] 9
      none 0 rfl).2 Stored.malformed⟩

/-- C1: for every manager response string, if it contains both the
`<decision>` and `</decision>` delimiters (at first indices `i` and `j`),
`parse_decision` returns the `Decision` whose name equals the delimited
substring trimmed of whitespace and upper-cased; if either delimiter is
absent, or the trimmed upper-cased value names no member of the enum, it
returns `Decision.HOLD` instead of failing. -/
theorem C1_parse_decision_delimited :
    (∀ content i j d, pyFind dOpen content = some i →
        pyFind dClose content = some j →
        Decision.name d = pyUpper (pyStrip (pySlice content (i + dOpen.length) j)) →
        (parse_decision content).decision = d) ∧
    (∀ content, pyFind dOpen content = none ∨ pyFind dClose content = none →
        (parse_decision content).decision = .HOLD) ∧
    (∀ content i j, pyFind dOpen content = some i →
        pyFind dClose content = some j →
        (∀ d, Decision.name d ≠ pyUpper (pyStrip (pySlice content (i + dOpen.length) j))) →
        (parse_decision content).decision = .HOLD) := by
  refine ⟨?_, ?_, ?_⟩
  · intro content i j d hi hj hname
    simp only [parse_decision, hi, hj]
    rw [← hname, decisionLookup_name]
  · intro content h
    cases ho : pyFind dOpen content with
    | none => simp only [parse_decision, ho]; rfl
    | some i =>
      rcases h with h | h
      · rw [ho] at h; exact absurd h (by simp)
      · simp only [parse_decision, ho, h]; rfl
  · intro content i j hi hj hname
    simp only [parse_decision, hi, hj]
    rw [decisionLookup_error hname]

/-- Witness for C1: `'<decision>  buy  </decision>'` parses to `BUY`
(case- and whitespace-insensitive); a text with no tags parses to `HOLD`;
an unrecognized value parses to `HOLD`. -/
theorem C1_witness :
    (parse_decision (("<decision>  buy  </decision>").data)).decision = .BUY ∧
    (parse_decision (("no tags here").data)).decision = .HOLD ∧
    (parse_decision (("<decision>maybe</decision>").data)).decision = .HOLD :=
  ⟨C1_parse_decision_delimited.1 (("<decision>  buy  </decision>").data) 0 17 .BUY
      (by decide) (by decide) (by decide),
    C1_parse_decision_delimited.2.1 (("no tags here").data) (Or.inl (by decide)),
    C1_parse_decision_delimited.2.2 (("<decision>maybe</decision>").data) 0 15
      (by decide) (by decide) (fun d => by cases d <;> decide)⟩

/-- C10: `parse_decision` is total — its result is always one of the
three enum members, never an exception — and in particular when the
`</decision>` closing tag occurs strictly before the `<decision>` opening
tag the computed slice is empty, the enum lookup fails, and the result
defaults to `Decision.HOLD`. -/
theorem C10_parse_decision_total :
    (∀ content, (parse_decision content).decision = .BUY ∨
        (parse_decision content).decision = .SELL ∨
        (parse_decision content).decision = .HOLD) ∧
    (∀ content i j, pyFind dOpen content = some i →
        pyFind dClose content = some j → j < i →
        (parse_decision content).decision = .HOLD) := by
  constructor
  · intro content
    cases h : (parse_decision content).decision
    · exact Or.inl rfl
    · exact Or.inr (Or.inl rfl)
    · exact Or.inr (Or.inr rfl)
  · intro content i j hi hj hji
    simp only [parse_decision, hi, hj]
    have hslice : pySlice content (i + dOpen.length) j = [] := by
      apply List.drop_eq_nil_of_le
      calc (content.take j).length ≤ j := by
            rw [List.length_take]; exact Nat.min_le_left _ _
        _ ≤ i + dOpen.length := by omega
    rw [hslice]
    rfl

/-- Witness for C10: a string whose closing tag precedes its opening tag
parses to `HOLD`, and the totality disjunction holds there too. -/
theorem C10_witness :
    (parse_decision (("</decision>x<decision>y").data)).decision = .HOLD :=
  C10_parse_decision_total.2 (("</decision>x<decision>y").data) 12 0
    (by decide) (by decide) (by decide)

/-- C8: when either `<key_points>` delimiter is absent from the input,
`extract_key_points` returns the fallback — the text itself when its
length is at most 500, otherwise its first 500 characters with `"..."`
appended — so the result length is bounded by 503 in the truncation
case. -/
theorem C8_extract_key_points_fallback :
    ∀ s : List Char, pyFind kOpen s = none ∨ pyFind kClose s = none →
      (s.length ≤ 500 → extract_key_points s = s) ∧
      (s.length > 500 → extract_key_points s = s.take 500 ++ ("...").data ∧
        (extract_key_points s).length = 503) := by
  intro s h
  have hmatch : extractMatch s = none := by
    rcases h with h | h
    · unfold extractMatch
      rw [h]
    · exact extractMatch_none_of_no_close h
  constructor
  · intro hle
    simp only [extract_key_points, hmatch]
    rw [if_neg (by omega)]
  · intro hgt
    have he : extract_key_points s = s.take 500 ++ ("...").data := by
      simp only [extract_key_points, hmatch]
      rw [if_pos hgt]
    refine ⟨he, ?_⟩
    rw [he, List.length_append, List.length_take, Nat.min_eq_left (by omega)]
    rfl

/-- Witness for C8: a tagless short text is returned unchanged. -/
theorem C8_witness : extract_key_points (("no tags").data) = ("no tags").data :=
  (C8_extract_key_points_fallback (("no tags").data) (Or.inl (by decide))).1 (by decide)

/-- C9: extraction is idempotent in the documented sense — whenever the
regex of `extract_key_points` matches and produces the trimmed first
group `r`, the group contains no `</key_points>` tag (first-pair
non-greedy semantics), so re-applying `extract_key_points` to `r` takes
the fallback path. -/
theorem C9_extract_key_points_idempotent :
    ∀ s r : List Char, extractMatch s = some r →
      extractMatch r = none ∧
      extract_key_points s = r ∧
      extract_key_points r =
        (if r.length > 500 then r.take 500 ++ ("...").data else r) := by
  intro s r h
  have hnone : extractMatch r = none :=
    extractMatch_none_of_no_close (extractMatch_no_close h)
  refine ⟨hnone, ?_, ?_⟩
  · simp only [extract_key_points, h]
  · simp only [extract_key_points, hnone]

/-- C2: when the metrics fetch reports an error, the orchestrator run
terminates early: the outcome is the error return (`none` — no
`PortfolioDecision`, synthetic, default, or otherwise) and the
completion-call trace is empty — no agent was invoked. -/
theorem C2_fetch_error_terminates_early :
    ∀ (metrics : Metrics) (providers : Providers) (oracle : Oracle)
      (e : List Char), metrics.error = some e →
      run_investment_committee metrics providers oracle = (.ok none, []) := by
  intro metrics providers oracle e he
  unfold run_investment_committee
  rw [he]

/-- Witness for C2: a `Ticker not found` fetch error produces the error
return with zero completion calls. -/
theorem C2_witness :
    run_investment_committee
      { error := some (("Ticker ZZZZ not found").data), formatted := [] }
      { bull := ("anthropic").data, bear := ("anthropic").data,
        pm := ("openai").data }
      (fun _ _ => []) = (.ok none, []) :=
  C2_fetch_error_terminates_early _ _ _ (("Ticker ZZZZ not found").data) rfl

/-- C3 (amended): the rebuttal never resets the conversation — the
resulting history is the prior history plus exactly one new user turn
(whose text is the fixed framing with the opponent's extracted key
points interpolated, and nothing else) and the assistant reply, and the
completion capability is invoked exactly once, with the entire
accumulated history.  The original financial-data payload, held in
earlier turns, is never copied into the new message by the agent; it can
only reappear inside the opponent's extracted key points themselves. -/
theorem C3_rebuttal_appends_only :
    ∀ (oracle : Oracle) (a : Agent) (bear_thesis : List Char)
      (tr : List CompletionCall),
      a.llm_provider = ("openai").data ∨ a.llm_provider = ("anthropic").data →
      BullAgent.analyze_rebuttal oracle a bear_thesis true tr =
        (.ok ({ a with history := a.history ++
            [Turn.mk .user
              (bullRebuttalPre ++ extract_key_points bear_thesis ++ bullRebuttalPost),
             Turn.mk .assistant
              (oracle a.role (a.history ++ [Turn.mk .user
                (bullRebuttalPre ++ extract_key_points bear_thesis ++ bullRebuttalPost)]))] },
          { role := a.role,
            content := oracle a.role (a.history ++ [Turn.mk .user
              (bullRebuttalPre ++ extract_key_points bear_thesis ++ bullRebuttalPost)]),
            raw_response := oracle a.role (a.history ++ [Turn.mk .user
              (bullRebuttalPre ++ extract_key_points bear_thesis ++ bullRebuttalPost)]) }),
          tr ++ [CompletionCall.mk a.role (a.history ++ [Turn.mk .user
            (bullRebuttalPre ++ extract_key_points bear_thesis ++ bullRebuttalPost)])]) := by
  intro oracle a bear_thesis tr hp
  unfold BullAgent.analyze_rebuttal Agent.invoke Agent.getClient
  rcases hp with hp | hp <;> rw [hp] <;> simp

/-- Witness for C3 (amended): a concrete rebuttal call appends the two
turns and invokes the capability once with the full history. -/
theorem C3_witness :
    BullAgent.analyze_rebuttal (fun _ _ => ("ok").data)
      (Agent.mk .bull (("anthropic").data) [Turn.mk .user (("data").data)])
      (("<key_points>pts</key_points>").data) true [] =
      (.ok (Agent.mk .bull (("anthropic").data)
          ([Turn.mk .user (("data").data)] ++
            [Turn.mk .user (bullRebuttalPre ++
                extract_key_points (("<key_points>pts</key_points>").data) ++
                bullRebuttalPost),
             Turn.mk .assistant (("ok").data)]),
        AgentResponse.mk .bull (("ok").data) (("ok").data)),
        [CompletionCall.mk .bull ([Turn.mk .user (("data").data)] ++
          [Turn.mk .user (bullRebuttalPre ++
            extract_key_points (("<key_points>pts</key_points>").data) ++
            bullRebuttalPost)])]) :=
  C3_rebuttal_appends_only (fun _ _ => ("ok").data)
    (Agent.mk .bull (("anthropic").data) [Turn.mk .user (("data").data)])
    (("<key_points>pts</key_points>").data) [] (Or.inr rfl)

/-- C3 counterexample: the claim that the original financial-data
payload is *never* a substring of the new outbound message fails when
the opponent's key points quote that payload.  Here the financial
payload `"FD1 | P:9"` reappears verbatim inside the rebuttal prompt sent
out, because the bear's `<key_points>` block quoted it. -/
theorem C3_counterexample :
    (BullAgent.analyze_rebuttal (fun _ _ => ("ok").data)
        { role := .bull, llm_provider := ("anthropic").data,
          history := [Turn.mk .user ((("FD1 | P:9").data) ++ bullInitialSuffix),
            Turn.mk .assistant (("bull view").data)] }
        (("<key_points>see FD1 | P:9</key_points>").data) true []).2 =
      [CompletionCall.mk .bull
        [Turn.mk .user ((("FD1 | P:9").data) ++ bullInitialSuffix),
          Turn.mk .assistant (("bull view").data),
          Turn.mk .user (bullRebuttalPre ++ (("see FD1 | P:9").data) ++ bullRebuttalPost)]] ∧
    (pyFind (("FD1 | P:9").data)
      (bullRebuttalPre ++ (("see FD1 | P:9").data) ++ bullRebuttalPost)).isSome = true := by
  constructor
  · decide
  · decide

/-- C4 counterexample: constructing an agent with an unknown provider
string does not raise — `Agent.__init__` stores the provider unchecked,
so the claimed fail-fast-at-construction behavior does not hold; the
`ValueError` only appears at the first client acquisition. -/
theorem C4_counterexample :
    Agent.init .bull (("bogus").data) =
      { role := .bull, llm_provider := ("bogus").data, history := [] } ∧
    Agent.getClient (Agent.init .bull (("bogus").data)) =
      .error (.valueError (("Unknown LLM provider: bogus").data)) := by
  constructor
  · rfl
  · rfl

/-- C4 (amended): an unknown provider identity is accepted at
construction and fails at first use — for every provider string other
than the recognized ones, `Agent.__init__` completes normally and the
first client acquisition (hence the first invoke, before any completion
call) raises `ValueError`. -/
theorem C4_unknown_provider_fails_at_first_use :
    ∀ (role : AgentRole) (p : List Char),
      p ≠ ("openai").data → p ≠ ("anthropic").data →
      Agent.init role p = { role := role, llm_provider := p, history := [] } ∧
      Agent.getClient (Agent.init role p) =
        .error (.valueError (("Unknown LLM provider: ").data ++ p)) ∧
      (∀ (oracle : Oracle) (msg : List Char) (cont : Bool)
        (tr : List CompletionCall),
        Agent.invoke oracle (Agent.init role p) msg cont tr =
          (.error (.valueError (("Unknown LLM provider: ").data ++ p)), tr)) := by
  intro role p h1 h2
  have hc : Agent.getClient (Agent.init role p) =
      .error (.valueError (("Unknown LLM provider: ").data ++ p)) := by
    unfold Agent.getClient Agent.init
    rw [if_neg h1, if_neg h2]
  refine ⟨rfl, hc, ?_⟩
  intro oracle msg cont tr
  unfold Agent.invoke
  rw [hc]

/-- Witness for C4 (amended): the provider string `"bogus"` is stored at
construction and raises only at first use. -/
theorem C4_witness :
    Agent.getClient (Agent.init .bear (("bogus").data)) =
      .error (.valueError (("Unknown LLM provider: ").data ++ ("bogus").data)) :=
  (C4_unknown_provider_fails_at_first_use .bear (("bogus").data)
    (by decide) (by decide)).2.1

/-- Witness for C9: re-extracting from an already-extracted group yields
the fallback (here, the group itself). -/
theorem C9_witness :
    extractMatch (("hi").data) = none ∧
    extract_key_points (("<key_points>hi</key_points>").data) = ("hi").data ∧
    extract_key_points (("hi").data) =
      (if (("hi").data).length > 500 then (("hi").data).take 500 ++ ("...").data
        else ("hi").data) :=
  C9_extract_key_points_idempotent (("<key_points>hi</key_points>").data) (("hi").data)
    (by decide)

end InvestmentCommittee
